import Mathlib

/-!
Shallow embedding of the serverless task-management backend
(`lambda/task/handler.py`, `lambda/task/notifications.py`,
`lambda/user/handler.py`, `lambda/deadline/handler.py`).

Conventions of the embedding:
* JSON request bodies are records of `Option String` fields (`None` models an
  absent key); Python truthiness (`if not x`) is the `truthy` test below, which
  is false for an absent key and for the empty string.
* The DynamoDB task table is a `List Task`; `get_item` is first-match lookup by
  key, `put_item` replaces the record with the same key or appends.
* The Cognito user pool is a `List CognitoUser`.
* External-call failure branches that the source handles explicitly
  (`try/except` returning 500) are modelled by boolean oracle parameters
  (`cognito_ok`, `ddb_get_ok`, `ddb_put_ok`, ...); unguarded external calls
  (e.g. `table.scan()` in `list_tasks`) are modelled as total.
* Unhandled Python exceptions (`KeyError` from a direct subscript,
  `AttributeError`) are `Except.error` values threaded out of the handler.
* Every operation returns, besides its HTTP response, the final store and the
  lists of e-mails / topic messages actually sent, so that write- and
  notification-effects are observable.
* The dynamic `str(e)` fragments interpolated into 500-error bodies are elided;
  no claim inspects those bodies.
-/

namespace Holiday

/-- Python exceptions that can escape the handlers. -/
inductive PyErr where
  | keyError : String → PyErr
  | attributeError : String → PyErr
  deriving Repr, DecidableEq

/-- Python truthiness of `dict.get(k)` results: `None` and `""` are falsy. -/
def truthy : Option String → Bool
  | none => false
  | some s => !s.isEmpty

/-- A task record as stored in the DynamoDB table (fields of the `item` dict
built in `create_task`, lines 140-149 of task/handler.py). -/
structure Task where
  taskId : String
  assignedTo : String
  status : String
  deadline : String
  description : String
  createdBy : String
  createdAt : String
  updatedAt : String
  deriving Repr, DecidableEq

/-- The task table. -/
abbrev Store := List Task

/-- `table.get_item(Key=\x7b'taskId': tid\x7d)` then `.get('Item')`. -/
def getItem (store : Store) (tid : String) : Option Task :=
  store.find? (fun t => t.taskId == tid)

/-- `table.put_item(Item=item)`: replace the record with the same key, or
append a new record. -/
def putItem (store : Store) (item : Task) : Store :=
  if store.any (fun t => t.taskId == item.taskId) then
    store.map (fun t => if t.taskId == item.taskId then item else t)
  else store ++ [item]

/-- A Cognito user profile, with the fields the handlers read: `Username`,
the `sub` attribute (used by the `list_users` filter), the attribute list,
`Enabled`, `UserStatus`, and group memberships. -/
structure CognitoUser where
  username : String
  sub : String
  attributes : List (String × String)
  enabled : Bool
  userStatus : String
  groups : List String
  deriving Repr, DecidableEq

/-- `next((attr['Value'] for attr in attributes if attr['Name'] == name), None)`. -/
def getAttr (u : CognitoUser) (name : String) : Option String :=
  (u.attributes.find? (fun a => a.1 == name)).map (fun a => a.2)

/-- `cognito_client.list_users(UserPoolId=..., Filter=f'sub = "{s}"')`. -/
def listUsersBySub (pool : List CognitoUser) (s : String) : List CognitoUser :=
  pool.filter (fun u => u.sub == s)

/-- An e-mail sent through SES. -/
structure Email where
  source : String
  toAddress : String
  subject : String
  bodyText : String
  deriving Repr, DecidableEq

/-- A message published to an SNS topic. -/
structure SnsPublish where
  topicArn : String
  message : String
  subject : Option String
  deriving Repr, DecidableEq

/-- The environment read by notifications.py at import time, plus oracles for
whether the SES send / SNS publish transport calls succeed. -/
structure NotifEnv where
  SENDER_EMAIL_ADDRESS : Option String
  NOTIFICATION_TOPIC_ARN : Option String
  USER_POOL_ID : Option String
  sesSendOk : Bool
  snsPublishOk : Bool
  deriving Repr, DecidableEq

/-- notifications.py `send_task_assignment_email` (lines 38-65).  The SES
client exists iff `SENDER_EMAIL_ADDRESS` is truthy.  Returns the `True/False`
result together with the e-mails actually delivered; every failure path
returns `false` instead of raising. -/
def send_task_assignment_email (env : NotifEnv) (recipient_email : String)
    (task_description task_deadline assignee_username : String) :
    Bool × List Email :=
  if !truthy env.SENDER_EMAIL_ADDRESS then (false, [])
  else if recipient_email.isEmpty then (false, [])
  else if env.sesSendOk then
    (true, [⟨env.SENDER_EMAIL_ADDRESS.getD "", recipient_email,
            "New Task Assigned to You",
            "Hello " ++ (if assignee_username.isEmpty then "User" else assignee_username)
              ++ ",\n\nA new task \x27" ++ task_description
              ++ "\x27 has been assigned to you.\nDeadline: " ++ task_deadline
              ++ "\n\nThank you."⟩])
  else (false, [])

/-- `cognito_client.admin_get_user(UserPoolId=..., Username=name)`; `none`
models the raised lookup exception. -/
def adminGetUser (pool : List CognitoUser) (name : String) : Option CognitoUser :=
  pool.find? (fun u => u.username == name)

/-- notifications.py `send_status_update_notification` (lines 67-99).  The SNS
client exists iff `NOTIFICATION_TOPIC_ARN` is truthy; the Cognito client iff
`USER_POOL_ID` is truthy.  Returns the `True/False` result together with the
messages actually published. -/
def send_status_update_notification (env : NotifEnv) (pool : List CognitoUser)
    (task_id task_description old_status new_status updated_by_username : String)
    (assigned_to_sub_of_task : Option String) : Bool × List SnsPublish :=
  if !truthy env.NOTIFICATION_TOPIC_ARN then (false, [])
  else
    let subj := "Task Status Updated: " ++ task_description.take 50
    let base := "Task Update: \x27" ++ task_description ++ "\x27 (ID: " ++ task_id
      ++ ") status changed from \x27" ++ old_status ++ "\x27 to \x27" ++ new_status
      ++ "\x27 by user " ++ updated_by_username ++ "."
    let body :=
      if truthy assigned_to_sub_of_task && truthy env.USER_POOL_ID then
        match adminGetUser pool (assigned_to_sub_of_task.getD "") with
        | some prof =>
            let friendly := ((prof.attributes.find?
              (fun a => a.1 == "preferred_username")).map (fun a => a.2)).getD
              (assigned_to_sub_of_task.getD "")
            base ++ " Task is assigned to: " ++ friendly ++ " (sub: "
              ++ assigned_to_sub_of_task.getD "" ++ ")."
        | none =>
            base ++ " Task is assigned to sub: " ++ assigned_to_sub_of_task.getD "" ++ "."
      else if truthy assigned_to_sub_of_task then
        base ++ " Task is assigned to sub: " ++ assigned_to_sub_of_task.getD "" ++ "."
      else base
    if env.snsPublishOk then
      (true, [⟨env.NOTIFICATION_TOPIC_ARN.getD "", body, some subj⟩])
    else (false, [])

/-- Response bodies (`json.dumps` payloads) of the handlers. -/
inductive Body where
  | msg : String → Body
  | err : String → Body
  | items : List Task → Body
  | created : Task → Body
  | updated : String → Task → Body
  | alerts : List String → Body
  deriving Repr, DecidableEq

/-- An HTTP response dict: status code, body, headers. -/
structure Resp where
  statusCode : Nat
  body : Body
  headers : List (String × String)
  deriving Repr, DecidableEq

/-- `DEFAULT_CORS_HEADERS` of task/handler.py and user/handler.py. -/
def DEFAULT_CORS_HEADERS : List (String × String) :=
  [("Access-Control-Allow-Origin", "*"),
   ("Access-Control-Allow-Headers",
    "Content-Type,X-Amz-Date,Authorization,X-Api-Key,X-Amz-Security-Token"),
   ("Access-Control-Allow-Methods", "GET,POST,PUT,OPTIONS")]

/-- Python `old.update(new)` on dicts-as-association-lists: existing keys keep
their position and take the new value, fresh keys are appended. -/
def dictUpdate (old new : List (String × String)) : List (String × String) :=
  old.map (fun p =>
    match new.find? (fun q => q.1 == p.1) with
    | some q => q
    | none => p)
  ++ new.filter (fun q => !(old.any (fun p => p.1 == q.1)))

/-- Identity claims attached by the Cognito authorizer. -/
structure Claims where
  username : String
  sub : String
  groups : List String
  deriving Repr, DecidableEq

/-- Parsed JSON body of a task request. -/
structure TaskBody where
  assignedTo : Option String := none
  deadline : Option String := none
  description : Option String := none
  taskId : Option String := none
  status : Option String := none
  deriving Repr, DecidableEq

instance {ε α : Type} [DecidableEq ε] [DecidableEq α] : DecidableEq (Except ε α) := fun a b =>
  match a, b with
  | .error e, .error f =>
      if h : e = f then isTrue (by simp [h]) else isFalse (by simp [h])
  | .error _, .ok _ => isFalse (by simp)
  | .ok _, .error _ => isFalse (by simp)
  | .ok x, .ok y =>
      if h : x = y then isTrue (by simp [h]) else isFalse (by simp [h])

/-- Outcome of a task-handler operation: the HTTP response (or an escaped
Python exception), the final store, and the notification effects. -/
structure TaskOpResult where
  resp : Except PyErr Resp
  store : Store
  emails : List Email
  published : List SnsPublish
  deriving Repr, DecidableEq

/-- task/handler.py `list_tasks` (lines 66-81): admins scan everything, others
scan with the filter `assignedTo = :user_sub`. -/
def list_tasks (requesting_username requesting_user_sub : String)
    (groups : List String) (store : Store) : Resp :=
  let _ := requesting_username
  let is_admin := groups.contains "admin"
  if is_admin then ⟨200, Body.items store, []⟩
  else ⟨200, Body.items (store.filter (fun t => t.assignedTo == requesting_user_sub)), []⟩

/-- task/handler.py `create_task` (lines 83-173).  `newTaskId` models
`uuid.uuid4()` and `now` the two `datetime.now(timezone.utc).isoformat()`
calls; `cognito_ok` / `ddb_put_ok` model whether `list_users` / `put_item`
raise.  Note that `data['deadline']` and `data['description']` are direct
subscripts outside any `try`, so a missing key raises `KeyError`. -/
def create_task (env : NotifEnv) (pool : List CognitoUser)
    (newTaskId now : String) (cognito_ok ddb_put_ok : Bool)
    (data : TaskBody) (created_by_username : String) (groups : List String)
    (store : Store) : TaskOpResult :=
  if !(groups.contains "admin") then
    ⟨.ok ⟨403, Body.err "Unauthorized. Only admins can create tasks.", []⟩, store, [], []⟩
  else if !truthy data.assignedTo then
    ⟨.ok ⟨400, Body.err "assignedTo (user sub) is required", []⟩, store, [], []⟩
  else
    let assigned_to_sub := data.assignedTo.getD ""
    if !cognito_ok then
      ⟨.ok ⟨500, Body.err "Error verifying assigned user: ", []⟩, store, [], []⟩
    else
      match listUsersBySub pool assigned_to_sub with
      | [user_profile] =>
        let actual_username_for_task := user_profile.username
        let user_email := getAttr user_profile "email"
        if !truthy user_email then
          ⟨.ok ⟨400, Body.err ("Assigned user (sub: " ++ assigned_to_sub
              ++ ") does not have an email address."), []⟩, store, [], []⟩
        else
          match data.deadline with
          | none => ⟨.error (PyErr.keyError "deadline"), store, [], []⟩
          | some the_deadline =>
            match data.description with
            | none => ⟨.error (PyErr.keyError "description"), store, [], []⟩
            | some the_description =>
              let item : Task :=
                ⟨newTaskId, assigned_to_sub, "New", the_deadline, the_description,
                 created_by_username, now, now⟩
              if !ddb_put_ok then
                ⟨.ok ⟨500, Body.err "Could not create task in database.", []⟩, store, [], []⟩
              else
                let sent := (send_task_assignment_email env (user_email.getD "")
                  item.description item.deadline actual_username_for_task).2
                ⟨.ok ⟨201, Body.created item, []⟩, putItem store item, sent, []⟩
      | _ =>
        ⟨.ok ⟨404, Body.err ("Assigned user (sub: " ++ assigned_to_sub
            ++ ") not found."), []⟩, store, [], []⟩

/-- task/handler.py `update_task` (lines 175-234).  `now` models the
`updatedAt` refresh; `ddb_get_ok` / `ddb_put_ok` model whether `get_item` /
`put_item` raise. -/
def update_task (env : NotifEnv) (pool : List CognitoUser) (now : String)
    (ddb_get_ok ddb_put_ok : Bool) (data : TaskBody)
    (updated_by_username updated_by_sub : String) (groups : List String)
    (store : Store) : TaskOpResult :=
  if !truthy data.taskId || !truthy data.status then
    ⟨.ok ⟨400, Body.err "taskId and status are required", []⟩, store, [], []⟩
  else
    let task_id := data.taskId.getD ""
    let new_status := data.status.getD ""
    if !ddb_get_ok then
      ⟨.ok ⟨500, Body.err "Could not retrieve task", []⟩, store, [], []⟩
    else
      match getItem store task_id with
      | none => ⟨.ok ⟨404, Body.err "Task not found", []⟩, store, [], []⟩
      | some current_task =>
        let is_admin := groups.contains "admin"
        let assigned_to_sub_of_task := current_task.assignedTo
        if !is_admin && assigned_to_sub_of_task != updated_by_sub then
          ⟨.ok ⟨403, Body.err "Unauthorized. You can only update tasks assigned to you.",
            []⟩, store, [], []⟩
        else
          let old_status := current_task.status
          let new_task : Task := { current_task with status := new_status, updatedAt := now }
          if !ddb_put_ok then
            ⟨.ok ⟨500, Body.err "Could not update task", []⟩, store, [], []⟩
          else
            let pubs :=
              if new_status != old_status then
                (send_status_update_notification env pool task_id
                  new_task.description old_status new_status updated_by_username
                  (some assigned_to_sub_of_task)).2
              else []
            ⟨.ok ⟨200, Body.updated "Task updated successfully" new_task, []⟩,
              putItem store new_task, [], pubs⟩

/-- An API Gateway event as the task handler reads it: the HTTP method, the
authorizer claims, and the parsed JSON body. -/
structure TaskEvent where
  httpMethod : String
  claims : Claims
  body : TaskBody
  deriving Repr, DecidableEq

/-- task/handler.py `handler` (lines 36-64): OPTIONS short-circuits, other
methods dispatch to the operations, unknown methods get 405; the default CORS
headers are merged into every non-OPTIONS response dict. -/
def handler (env : NotifEnv) (pool : List CognitoUser)
    (newTaskId now : String) (cognito_ok ddb_get_ok ddb_put_ok : Bool)
    (event : TaskEvent) (store : Store) : TaskOpResult :=
  if event.httpMethod == "OPTIONS" then
    ⟨.ok ⟨200, Body.msg "CORS preflight successful", DEFAULT_CORS_HEADERS⟩, store, [], []⟩
  else
    let username := event.claims.username
    let sub := event.claims.sub
    let groups := event.claims.groups
    let r : TaskOpResult :=
      if event.httpMethod == "GET" then
        ⟨.ok (list_tasks username sub groups store), store, [], []⟩
      else if event.httpMethod == "POST" then
        create_task env pool newTaskId now cognito_ok ddb_put_ok event.body username groups store
      else if event.httpMethod == "PUT" then
        update_task env pool now ddb_get_ok ddb_put_ok event.body username sub groups store
      else
        ⟨.ok ⟨405, Body.err "Method Not Allowed", []⟩, store, [], []⟩
    match r.resp with
    | .ok resp =>
        { r with resp := .ok { resp with
            headers := dictUpdate resp.headers DEFAULT_CORS_HEADERS } }
    | .error _ => r

/-- Parsed JSON body of a user-creation request. -/
structure UserBody where
  username : Option String := none
  email : Option String := none
  temporaryPassword : Option String := none
  deriving Repr, DecidableEq

/-- The per-user summary built by the user handler's list branch. -/
structure UserSummary where
  username : String
  attributes : List (String × String)
  enabled : Bool
  userStatus : String
  groups : List String
  deriving Repr, DecidableEq

/-- Response bodies of the user handler. -/
inductive UserRespBody where
  | msg : String → UserRespBody
  | err : String → UserRespBody
  | userList : List UserSummary → UserRespBody
  deriving Repr, DecidableEq

/-- An HTTP response of the user handler. -/
structure UserResp where
  statusCode : Nat
  body : UserRespBody
  headers : List (String × String)
  deriving Repr, DecidableEq

/-- Outcome of a user-handler request: the HTTP response, the identities the
directory was asked to create (username, email, temporary password), and the
group placements performed (username, group). -/
structure UserOpResult where
  resp : UserResp
  created : List (String × String × String)
  groupAdds : List (String × String)
  deriving Repr, DecidableEq

/-- The `'Access-Control-Allow-Origin': '*'` header dict used by the user
handler's own responses. -/
def ALLOW_ORIGIN : List (String × String) := [("Access-Control-Allow-Origin", "*")]

/-- user/handler.py `handler` (lines 31-148): OPTIONS short-circuits; all other
methods require `admin` group membership; POST validates `username`/`email`,
creates the identity, and places it into the `member` group; every other
method lists all users with their attributes and groups.  `create_ok`,
`add_group_ok` and `list_ok` model whether `admin_create_user`,
`admin_add_user_to_group` and the list branch's directory calls raise; a
raised call is caught and answered with a 500. -/
def user_handler (create_ok add_group_ok list_ok : Bool)
    (pool : List CognitoUser) (httpMethod : String) (groups : List String)
    (body : UserBody) : UserOpResult :=
  if httpMethod == "OPTIONS" then
    ⟨⟨200, UserRespBody.msg "CORS preflight successful", DEFAULT_CORS_HEADERS⟩, [], []⟩
  else if !(groups.contains "admin") then
    ⟨⟨403, UserRespBody.err "Unauthorized. Only admins can list users.", ALLOW_ORIGIN⟩, [], []⟩
  else if httpMethod == "POST" then
    if !truthy body.username || !truthy body.email then
      ⟨⟨400, UserRespBody.err "username and email are required.", ALLOW_ORIGIN⟩, [], []⟩
    else
      let username := body.username.getD ""
      let email := body.email.getD ""
      let temp_password := body.temporaryPassword.getD "TempPassword123!"
      if !create_ok then
        ⟨⟨500, UserRespBody.err "Error creating user", ALLOW_ORIGIN⟩, [], []⟩
      else if !add_group_ok then
        ⟨⟨500, UserRespBody.err "Error creating user", ALLOW_ORIGIN⟩,
          [(username, email, temp_password)], []⟩
      else
        ⟨⟨201, UserRespBody.msg ("User " ++ username ++ " created and added to member group."),
          ALLOW_ORIGIN⟩, [(username, email, temp_password)], [(username, "member")]⟩
  else
    if !list_ok then
      ⟨⟨500, UserRespBody.err "Error listing users", ALLOW_ORIGIN⟩, [], []⟩
    else
      let users := pool.map (fun u =>
        UserSummary.mk u.username u.attributes u.enabled u.userStatus u.groups)
      ⟨⟨200, UserRespBody.userList users, ALLOW_ORIGIN⟩, [], []⟩

/-- Outcome of a deadline-scanner invocation: the response and the messages
published to the notification topic. -/
structure DeadlineResult where
  resp : Resp
  published : List SnsPublish
  deriving Repr, DecidableEq

/-- Models line 18 of deadline/handler.py, `datetime.now(datetime.UTC)`.
Because of `from datetime import datetime`, the name `datetime` there is the
class `datetime.datetime`, which has no `UTC` attribute (that alias lives on
the `datetime` module, Python 3.11+), so the attribute access raises
`AttributeError` before `now` is ever computed. -/
def datetime_now_UTC : Except PyErr String :=
  .error (PyErr.attributeError "type object datetime.datetime has no attribute UTC")

/-- Lines 21-33 of deadline/handler.py as a function of the computed `soon`
bound: one alert message is built and published per record whose status is not
Completed and whose deadline string is lexicographically at most `soon`. -/
def deadline_scan (topicArn soon : String) (store : Store) : DeadlineResult :=
  let alerts := (store.filter (fun task =>
      task.status != "Completed" && decide (task.deadline ≤ soon))).map
    (fun task => "Task \x27" ++ task.description ++ "\x27 assigned to "
      ++ task.assignedTo ++ " is nearing its deadline.")
  ⟨⟨200, Body.alerts alerts, []⟩, alerts.map (fun m => ⟨topicArn, m, none⟩)⟩

/-- deadline/handler.py `handler` (lines 17-33).  `plusOneHourIso` is the
external datetime-library oracle for `(now + timedelta(hours=1)).isoformat()`;
the computation of `now` itself is the faulty attribute access above, so it
raises before the oracle, the scan, or any publish can run. -/
def deadline_handler (plusOneHourIso : String → String) (topicArn : String)
    (store : Store) : Except PyErr DeadlineResult := do
  let now ← datetime_now_UTC
  let soon := plusOneHourIso now
  pure (deadline_scan topicArn soon store)

/-! Concrete records used by the witnesses. -/

/-- Demo task assigned to sub-alice. -/
def demoTaskA : Task :=
  ⟨"t1", "sub-alice", "New", "2026-01-01T00:00:00+00:00", "write report", "boss",
   "2025-12-01T00:00:00+00:00", "2025-12-01T00:00:00+00:00"⟩

/-- Demo task assigned to sub-bob. -/
def demoTaskB : Task :=
  ⟨"t2", "sub-bob", "New", "2026-01-02T00:00:00+00:00", "file taxes", "boss",
   "2025-12-01T00:00:00+00:00", "2025-12-01T00:00:00+00:00"⟩

/-- Demo store holding one task for each of two users. -/
def demoStore : Store := [demoTaskA, demoTaskB]

/-- Demo notification environment with both channels configured and working. -/
def demoEnv : NotifEnv :=
  ⟨some "sender@example.com", some "arn:alerts", some "pool-1", true, true⟩

/-- Demo Cognito profile for alice. -/
def demoAlice : CognitoUser :=
  ⟨"alice", "sub-alice", [("email", "alice@example.com")], true, "CONFIRMED", ["member"]⟩

/-- Demo user pool. -/
def demoPool : List CognitoUser := [demoAlice]

/-- C1: for a GET /tasks request, an admin caller receives status 200 with all
stored records; any other caller receives status 200 with exactly the records
whose assignedTo equals the caller's sub, and every record of that response is
assigned to the caller. -/
theorem list_tasks_scoping (u sub : String) (groups : List String) (store : Store) :
    (groups.contains "admin" = true →
      list_tasks u sub groups store = ⟨200, Body.items store, []⟩)
    ∧ (groups.contains "admin" = false →
      list_tasks u sub groups store
        = ⟨200, Body.items (store.filter (fun t => t.assignedTo == sub)), []⟩
      ∧ ∀ t ∈ store.filter (fun t => t.assignedTo == sub), t.assignedTo = sub) := by
  constructor
  · intro h
    have h' : "admin" ∈ groups := by simpa using h
    simp [list_tasks, h']
  · intro h
    have h' : "admin" ∉ groups := by simpa using h
    refine ⟨by simp [list_tasks, h'], ?_⟩
    intro t ht
    have hmem := List.mem_filter.mp ht
    simpa using hmem.2

/-- Concrete check of list_tasks_scoping: the non-admin caller sub-alice sees
only her own record out of a two-user store. -/
theorem list_tasks_scoping_witness :
    (["member"] : List String).contains "admin" = false
    ∧ (list_tasks "alice" "sub-alice" ["member"] demoStore
        = ⟨200, Body.items (demoStore.filter (fun t => t.assignedTo == "sub-alice")), []⟩
      ∧ ∀ t ∈ demoStore.filter (fun t => t.assignedTo == "sub-alice"),
          t.assignedTo = "sub-alice") :=
  ⟨by decide,
   (list_tasks_scoping "alice" "sub-alice" ["member"] demoStore).2 (by decide)⟩

/-- C2: for a PUT /tasks request whose taskId names an existing record, a
caller who is neither an admin nor the record's assignee gets a 403 Forbidden
response; the store is returned unchanged and nothing is published. -/
theorem update_task_forbidden_unchanged
    (env : NotifEnv) (pool : List CognitoUser) (now : String) (pok : Bool)
    (data : TaskBody) (uname usub : String) (groups : List String)
    (store : Store) (rec : Task)
    (htid : truthy data.taskId = true) (hst : truthy data.status = true)
    (hget : getItem store (data.taskId.getD "") = some rec)
    (hadmin : groups.contains "admin" = false)
    (hsub : rec.assignedTo ≠ usub) :
    update_task env pool now true pok data uname usub groups store
      = ⟨.ok ⟨403, Body.err "Unauthorized. You can only update tasks assigned to you.", []⟩,
          store, [], []⟩ := by
  have hadmin' : "admin" ∉ groups := by simpa using hadmin
  simp [update_task, htid, hst, hget, hadmin', bne_iff_ne, hsub]

/-- Demo PUT body naming task t1 with a new status. -/
def demoUpdBody : TaskBody := ⟨none, none, none, some "t1", some "Completed"⟩

/-- Concrete check of update_task_forbidden_unchanged: bob (not admin, not the
assignee of t1) gets 403 and the store is untouched. -/
theorem update_task_forbidden_unchanged_witness :
    truthy demoUpdBody.taskId = true
    ∧ getItem demoStore (demoUpdBody.taskId.getD "") = some demoTaskA
    ∧ demoTaskA.assignedTo ≠ "sub-bob"
    ∧ update_task demoEnv demoPool "2026-01-01T00:00:00+00:00" true true demoUpdBody
        "bob" "sub-bob" ["member"] demoStore
      = ⟨.ok ⟨403, Body.err "Unauthorized. You can only update tasks assigned to you.", []⟩,
          demoStore, [], []⟩ :=
  ⟨by decide, by decide, by decide,
   update_task_forbidden_unchanged demoEnv demoPool "2026-01-01T00:00:00+00:00" true
     demoUpdBody "bob" "sub-bob" ["member"] demoStore demoTaskA
     (by decide) (by decide) (by decide) (by decide) (by decide)⟩

/-- Helper: when `deadline` or `description` is absent from the body,
create_task never reaches the put, so the store comes back unchanged and no
201 Created response is possible. -/
theorem create_task_no_write_of_missing
    (env : NotifEnv) (pool : List CognitoUser) (nid now : String) (cok pok : Bool)
    (data : TaskBody) (u : String) (groups : List String) (store : Store)
    (hmiss : data.deadline = none ∨ data.description = none) :
    (create_task env pool nid now cok pok data u groups store).store = store
    ∧ ∀ item : Task, (create_task env pool nid now cok pok data u groups store).resp
        ≠ .ok ⟨201, Body.created item, []⟩ := by
  have main : ∀ item : Task,
      (create_task env pool nid now cok pok data u groups store).store = store
      ∧ (create_task env pool nid now cok pok data u groups store).resp
          ≠ .ok ⟨201, Body.created item, []⟩ := by
    intro item
    unfold create_task
    by_cases hm : "admin" ∈ groups
    · cases hb : truthy data.assignedTo
      · simp [hm, hb]
      · cases cok
        · simp [hm, hb]
        · rcases hl : listUsersBySub pool (data.assignedTo.getD "") with _ | ⟨a, _ | ⟨b2, l⟩⟩
          · simp [hm, hb, hl]
          · cases he : truthy (getAttr a "email")
            · simp [hm, hb, hl, he]
            · rcases hd : data.deadline with _ | d
              · simp [hm, hb, hl, he, hd]
              · rcases hmiss with h | h
                · rw [hd] at h; cases h
                · simp [hm, hb, hl, he, hd, h]
          · simp [hm, hb, hl]
    · simp [hm]
  exact ⟨(main ⟨"", "", "", "", "", "", "", ""⟩).1, fun item => (main item).2⟩

/-- Demo create body whose deadline key is absent. -/
def demoNoDeadlineBody : TaskBody :=
  ⟨some "sub-alice", none, some "write report", none, none⟩

/-- C3 counterexample: an admin create request for a resolvable assignee with
a description but no deadline key is not answered with status 400 — the
direct subscript on the body raises a KeyError, so no HTTP response is built
at all (though, as the claim also says, nothing is written). -/
theorem create_task_missing_deadline_no_badrequest :
    (create_task demoEnv demoPool "t9" "now" true true demoNoDeadlineBody
        "boss" ["admin"] []).resp = .error (PyErr.keyError "deadline")
    ∧ ((create_task demoEnv demoPool "t9" "now" true true demoNoDeadlineBody
        "boss" ["admin"] []).resp.toOption.map Resp.statusCode = none)
    ∧ (create_task demoEnv demoPool "t9" "now" true true demoNoDeadlineBody
        "boss" ["admin"] []).store = [] := by
  decide

/-- C3 amended: for an admin create request, a missing assignedTo yields
status 400 and no write; but a missing deadline or description is not
presence-checked — the store still comes back unchanged and no 201 response
is possible, and on the path where the assignee resolves to a unique profile
with an email the operation escapes with a KeyError instead of returning a
400 response. -/
theorem create_task_missing_required_fields
    (env : NotifEnv) (pool : List CognitoUser) (nid now : String) (pok : Bool)
    (data : TaskBody) (u : String) (groups : List String) (store : Store)
    (hadmin : groups.contains "admin" = true)
    (hmiss : data.deadline = none ∨ data.description = none) :
    (truthy data.assignedTo = false →
      create_task env pool nid now true pok data u groups store
        = ⟨.ok ⟨400, Body.err "assignedTo (user sub) is required", []⟩, store, [], []⟩)
    ∧ (create_task env pool nid now true pok data u groups store).store = store
    ∧ (∀ item : Task, (create_task env pool nid now true pok data u groups store).resp
        ≠ .ok ⟨201, Body.created item, []⟩)
    ∧ (∀ user_profile : CognitoUser,
        truthy data.assignedTo = true →
        listUsersBySub pool (data.assignedTo.getD "") = [user_profile] →
        truthy (getAttr user_profile "email") = true →
        ∃ k, (create_task env pool nid now true pok data u groups store).resp
          = .error (PyErr.keyError k)) := by
  have hadmin' : "admin" ∈ groups := by simpa using hadmin
  refine ⟨?_,
    (create_task_no_write_of_missing env pool nid now true pok data u groups store hmiss).1,
    (create_task_no_write_of_missing env pool nid now true pok data u groups store hmiss).2,
    ?_⟩
  · intro h; simp [create_task, hadmin', h]
  · intro p hass hl hemail
    rcases hmem : data.deadline with _ | d
    · exact ⟨"deadline", by simp [create_task, hadmin', hass, hl, hemail, hmem]⟩
    · rcases hmiss with h | h
      · rw [hmem] at h; cases h
      · exact ⟨"description", by simp [create_task, hadmin', hass, hl, hemail, hmem, h]⟩

/-- Concrete check of create_task_missing_required_fields at
demoNoDeadlineBody (deadline absent, assignee resolvable). -/
theorem create_task_missing_required_fields_witness :
    (["admin"] : List String).contains "admin" = true
    ∧ (demoNoDeadlineBody.deadline = none ∨ demoNoDeadlineBody.description = none)
    ∧ ((truthy demoNoDeadlineBody.assignedTo = false →
        create_task demoEnv demoPool "t9" "now" true true demoNoDeadlineBody
            "boss" ["admin"] demoStore
          = ⟨.ok ⟨400, Body.err "assignedTo (user sub) is required", []⟩, demoStore, [], []⟩)
      ∧ (create_task demoEnv demoPool "t9" "now" true true demoNoDeadlineBody
            "boss" ["admin"] demoStore).store = demoStore
      ∧ (∀ item : Task, (create_task demoEnv demoPool "t9" "now" true true demoNoDeadlineBody
            "boss" ["admin"] demoStore).resp ≠ .ok ⟨201, Body.created item, []⟩)
      ∧ (∀ user_profile : CognitoUser,
          truthy demoNoDeadlineBody.assignedTo = true →
          listUsersBySub demoPool (demoNoDeadlineBody.assignedTo.getD "") = [user_profile] →
          truthy (getAttr user_profile "email") = true →
          ∃ k, (create_task demoEnv demoPool "t9" "now" true true demoNoDeadlineBody
            "boss" ["admin"] demoStore).resp = .error (PyErr.keyError k))) :=
  ⟨by decide, Or.inl rfl,
   create_task_missing_required_fields demoEnv demoPool "t9" "now" true demoNoDeadlineBody
     "boss" ["admin"] demoStore (by decide) (Or.inl rfl)⟩

/-- C5: an admin create request whose assignedTo matches zero or more than one
directory entry is answered 404 and the store is returned unchanged. -/
theorem create_task_assignee_not_found
    (env : NotifEnv) (pool : List CognitoUser) (nid now : String) (pok : Bool)
    (data : TaskBody) (u : String) (groups : List String) (store : Store)
    (hadmin : groups.contains "admin" = true)
    (hass : truthy data.assignedTo = true)
    (hlen : (listUsersBySub pool (data.assignedTo.getD "")).length ≠ 1) :
    create_task env pool nid now true pok data u groups store
      = ⟨.ok ⟨404, Body.err ("Assigned user (sub: " ++ data.assignedTo.getD ""
          ++ ") not found."), []⟩, store, [], []⟩ := by
  have hadmin' : "admin" ∈ groups := by simpa using hadmin
  rcases hl : listUsersBySub pool (data.assignedTo.getD "") with _ | ⟨a, _ | ⟨b, l⟩⟩
  · simp [create_task, hadmin', hass, hl]
  · exact absurd (by rw [hl]; rfl) hlen
  · simp [create_task, hadmin', hass, hl]

/-- Demo create body naming an assignee unknown to the pool. -/
def demoUnknownBody : TaskBody :=
  ⟨some "sub-zed", some "2026-01-01T00:00:00+00:00", some "stocktake", none, none⟩

/-- Concrete check of create_task_assignee_not_found: sub-zed matches nobody
in demoPool, so the admin create gets a 404 and demoStore is untouched. -/
theorem create_task_assignee_not_found_witness :
    (["admin"] : List String).contains "admin" = true
    ∧ truthy demoUnknownBody.assignedTo = true
    ∧ (listUsersBySub demoPool (demoUnknownBody.assignedTo.getD "")).length ≠ 1
    ∧ create_task demoEnv demoPool "t9" "now" true true demoUnknownBody
        "boss" ["admin"] demoStore
      = ⟨.ok ⟨404, Body.err ("Assigned user (sub: " ++ demoUnknownBody.assignedTo.getD ""
          ++ ") not found."), []⟩, demoStore, [], []⟩ :=
  ⟨by decide, by decide, by decide,
   create_task_assignee_not_found demoEnv demoPool "t9" "now" true demoUnknownBody
     "boss" ["admin"] demoStore (by decide) (by decide) (by decide)⟩

/-- C6: a successful PUT update publishes a status-change message iff the new
status differs from the record's prior status (stated with the topic
configured and the transport succeeding, so the best-effort publish is
observable; an update rewriting the same status publishes nothing). -/
theorem update_notification_iff_status_change
    (env : NotifEnv) (pool : List CognitoUser) (now : String) (data : TaskBody)
    (uname usub : String) (groups : List String) (store : Store) (rec : Task)
    (htid : truthy data.taskId = true) (hst : truthy data.status = true)
    (hget : getItem store (data.taskId.getD "") = some rec)
    (hauth : groups.contains "admin" = true ∨ rec.assignedTo = usub)
    (htopic : truthy env.NOTIFICATION_TOPIC_ARN = true)
    (hpub : env.snsPublishOk = true) :
    ((update_task env pool now true true data uname usub groups store).published ≠ []
      ↔ data.status.getD "" ≠ rec.status) := by
  unfold update_task
  rcases hauth with h | h
  · have hm : "admin" ∈ groups := by simpa using h
    by_cases hne : data.status.getD "" = rec.status
    · simp [htid, hst, hget, hm, hne]
    · simp [htid, hst, hget, hm, hne, send_status_update_notification, htopic, hpub]
  · by_cases hne : data.status.getD "" = rec.status
    · simp [htid, hst, hget, h, hne]
    · simp [htid, hst, hget, h, hne, send_status_update_notification, htopic, hpub]

/-- Concrete check of update_notification_iff_status_change: an admin moving
t1 from New to Completed triggers exactly the publish the claim predicts. -/
theorem update_notification_iff_status_change_witness :
    truthy demoUpdBody.taskId = true
    ∧ getItem demoStore (demoUpdBody.taskId.getD "") = some demoTaskA
    ∧ truthy demoEnv.NOTIFICATION_TOPIC_ARN = true
    ∧ ((update_task demoEnv demoPool "2026-01-03T00:00:00+00:00" true true demoUpdBody
          "boss" "sub-boss" ["admin"] demoStore).published ≠ []
        ↔ demoUpdBody.status.getD "" ≠ demoTaskA.status) :=
  ⟨by decide, by decide, by decide,
   update_notification_iff_status_change demoEnv demoPool "2026-01-03T00:00:00+00:00"
     demoUpdBody "boss" "sub-boss" ["admin"] demoStore demoTaskA
     (by decide) (by decide) (by decide) (Or.inl (by decide)) (by decide) rfl⟩

/-- C7: a successful PUT update rewrites exactly the prior record with only
status (set to the requested value) and updatedAt (set to the fresh
timestamp) changed; taskId, assignedTo, deadline, description, createdBy and
createdAt are carried over unchanged, and the store write is exactly that
record. -/
theorem update_task_frame
    (env : NotifEnv) (pool : List CognitoUser) (now : String) (data : TaskBody)
    (uname usub : String) (groups : List String) (store : Store) (rec : Task)
    (htid : truthy data.taskId = true) (hst : truthy data.status = true)
    (hget : getItem store (data.taskId.getD "") = some rec)
    (hauth : groups.contains "admin" = true ∨ rec.assignedTo = usub) :
    ∃ newRec : Task,
      (update_task env pool now true true data uname usub groups store).resp
        = .ok ⟨200, Body.updated "Task updated successfully" newRec, []⟩
      ∧ (update_task env pool now true true data uname usub groups store).store
        = putItem store newRec
      ∧ newRec.taskId = rec.taskId ∧ newRec.assignedTo = rec.assignedTo
      ∧ newRec.deadline = rec.deadline ∧ newRec.description = rec.description
      ∧ newRec.createdBy = rec.createdBy ∧ newRec.createdAt = rec.createdAt
      ∧ newRec.status = data.status.getD "" ∧ newRec.updatedAt = now := by
  refine ⟨{ rec with status := data.status.getD "", updatedAt := now },
    ?_, ?_, rfl, rfl, rfl, rfl, rfl, rfl, rfl, rfl⟩
  · rcases hauth with h | h
    · have hm : "admin" ∈ groups := by simpa using h
      simp [update_task, htid, hst, hget, hm]
    · simp [update_task, htid, hst, hget, h]
  · rcases hauth with h | h
    · have hm : "admin" ∈ groups := by simpa using h
      simp [update_task, htid, hst, hget, hm]
    · simp [update_task, htid, hst, hget, h]

/-- Concrete check of update_task_frame: the admin update of t1 keeps every
field of demoTaskA except status and updatedAt. -/
theorem update_task_frame_witness :
    truthy demoUpdBody.taskId = true
    ∧ getItem demoStore (demoUpdBody.taskId.getD "") = some demoTaskA
    ∧ ∃ newRec : Task,
      (update_task demoEnv demoPool "2026-01-03T00:00:00+00:00" true true demoUpdBody
          "boss" "sub-boss" ["admin"] demoStore).resp
        = .ok ⟨200, Body.updated "Task updated successfully" newRec, []⟩
      ∧ (update_task demoEnv demoPool "2026-01-03T00:00:00+00:00" true true demoUpdBody
          "boss" "sub-boss" ["admin"] demoStore).store = putItem demoStore newRec
      ∧ newRec.taskId = demoTaskA.taskId ∧ newRec.assignedTo = demoTaskA.assignedTo
      ∧ newRec.deadline = demoTaskA.deadline ∧ newRec.description = demoTaskA.description
      ∧ newRec.createdBy = demoTaskA.createdBy ∧ newRec.createdAt = demoTaskA.createdAt
      ∧ newRec.status = demoUpdBody.status.getD ""
      ∧ newRec.updatedAt = "2026-01-03T00:00:00+00:00" :=
  ⟨by decide, by decide,
   update_task_frame demoEnv demoPool "2026-01-03T00:00:00+00:00" demoUpdBody
     "boss" "sub-boss" ["admin"] demoStore demoTaskA
     (by decide) (by decide) (by decide) (Or.inl (by decide))⟩

/-- C8: POST /users by an admin — a missing username or email is answered 400
with no identity created and no group placement; with both present and the
two directory calls succeeding, exactly one identity is created, it is placed
into the member group exactly once, and the response is 201 with the
confirmation message. -/
theorem user_create_validation_and_group
    (pool : List CognitoUser) (groups : List String) (body : UserBody)
    (hadmin : groups.contains "admin" = true) :
    ((truthy body.username = false ∨ truthy body.email = false) →
      user_handler true true true pool "POST" groups body
        = ⟨⟨400, UserRespBody.err "username and email are required.", ALLOW_ORIGIN⟩, [], []⟩)
    ∧ (truthy body.username = true → truthy body.email = true →
      user_handler true true true pool "POST" groups body
        = ⟨⟨201, UserRespBody.msg ("User " ++ body.username.getD ""
              ++ " created and added to member group."), ALLOW_ORIGIN⟩,
            [(body.username.getD "", body.email.getD "",
              body.temporaryPassword.getD "TempPassword123!")],
            [(body.username.getD "", "member")]⟩) := by
  have hm : "admin" ∈ groups := by simpa using hadmin
  constructor
  · rintro (h | h) <;> simp [user_handler, hm, h]
  · intro h1 h2
    simp [user_handler, hm, h1, h2]

/-- Demo user-creation body. -/
def demoUserBody : UserBody := ⟨some "carol", some "carol@example.com", none⟩

/-- Concrete check of user_create_validation_and_group: creating carol as an
admin yields 201, one created identity, and one member-group placement. -/
theorem user_create_validation_and_group_witness :
    (["admin"] : List String).contains "admin" = true
    ∧ truthy demoUserBody.username = true
    ∧ truthy demoUserBody.email = true
    ∧ user_handler true true true demoPool "POST" ["admin"] demoUserBody
      = ⟨⟨201, UserRespBody.msg ("User " ++ demoUserBody.username.getD ""
            ++ " created and added to member group."), ALLOW_ORIGIN⟩,
          [(demoUserBody.username.getD "", demoUserBody.email.getD "",
            demoUserBody.temporaryPassword.getD "TempPassword123!")],
          [(demoUserBody.username.getD "", "member")]⟩ :=
  ⟨by decide, by decide, by decide,
   (user_create_validation_and_group demoPool ["admin"] demoUserBody (by decide)).2
     (by decide) (by decide)⟩

/-- C9: a failing or unconfigured notification channel never changes an
operation's result: the e-mail helper and the topic-publish helper report
failure with a boolean (they are total functions, so nothing propagates), and
under those same environments a well-formed admin create still answers 201
and a well-formed authorized update still answers 200. -/
theorem notification_failure_isolation
    (env : NotifEnv) (pool : List CognitoUser)
    (re d dl a tid desc olds news ub : String) (ats : Option String)
    (nid now : String) (data : TaskBody) (u usub : String)
    (groups : List String) (store : Store) (rec : Task) (profile : CognitoUser)
    (dlv dsv : String)
    (hsender : truthy env.SENDER_EMAIL_ADDRESS = false ∨ env.sesSendOk = false)
    (htopic : truthy env.NOTIFICATION_TOPIC_ARN = false ∨ env.snsPublishOk = false)
    (hadmin : groups.contains "admin" = true)
    (hass : truthy data.assignedTo = true)
    (hl : listUsersBySub pool (data.assignedTo.getD "") = [profile])
    (hemail : truthy (getAttr profile "email") = true)
    (hdl : data.deadline = some dlv) (hds : data.description = some dsv)
    (htid : truthy data.taskId = true) (hst : truthy data.status = true)
    (hget : getItem store (data.taskId.getD "") = some rec)
    (hauth : rec.assignedTo = usub ∨ groups.contains "admin" = true) :
    (send_task_assignment_email env re d dl a).1 = false
    ∧ (send_status_update_notification env pool tid desc olds news ub ats).1 = false
    ∧ (create_task env pool nid now true true data u groups store).resp
        = .ok ⟨201, Body.created
            ⟨nid, data.assignedTo.getD "", "New", dlv, dsv, u, now, now⟩, []⟩
    ∧ (update_task env pool now true true data u usub groups store).resp
        = .ok ⟨200, Body.updated "Task updated successfully"
            { rec with status := data.status.getD "", updatedAt := now }, []⟩ := by
  have hm : "admin" ∈ groups := by simpa using hadmin
  refine ⟨?_, ?_, ?_, ?_⟩
  · rcases hsender with h | h
    · simp [send_task_assignment_email, h]
    · cases hs : truthy env.SENDER_EMAIL_ADDRESS <;> cases hre : re.isEmpty <;>
        simp [send_task_assignment_email, hs, hre, h]
  · rcases htopic with h | h
    · simp [send_status_update_notification, h]
    · cases ht : truthy env.NOTIFICATION_TOPIC_ARN <;>
        simp [send_status_update_notification, ht, h]
  · simp [create_task, hm, hass, hl, hemail, hdl, hds]
  · rcases hauth with h | h
    · simp [update_task, htid, hst, hget, h]
    · simp [update_task, htid, hst, hget, hm]

/-- Demo notification environment with neither channel configured. -/
def demoEnvOff : NotifEnv := ⟨none, none, none, true, true⟩

/-- Demo body carrying both a full create payload and a full update payload. -/
def demoFullBody : TaskBody :=
  ⟨some "sub-alice", some "2026-01-01T00:00:00+00:00", some "write report",
   some "t1", some "Completed"⟩

/-- Concrete check of notification_failure_isolation: with no channel
configured the helpers report failure, yet the admin create still answers 201
and the admin update still answers 200. -/
theorem notification_failure_isolation_witness :
    truthy demoEnvOff.SENDER_EMAIL_ADDRESS = false
    ∧ truthy demoEnvOff.NOTIFICATION_TOPIC_ARN = false
    ∧ (send_task_assignment_email demoEnvOff "alice@example.com" "write report"
        "2026-01-01T00:00:00+00:00" "alice").1 = false
    ∧ (send_status_update_notification demoEnvOff demoPool "t1" "write report"
        "New" "Completed" "boss" (some "sub-alice")).1 = false
    ∧ (create_task demoEnvOff demoPool "t9" "2026-01-03T00:00:00+00:00" true true
        demoFullBody "boss" ["admin"] demoStore).resp
      = .ok ⟨201, Body.created ⟨"t9", demoFullBody.assignedTo.getD "", "New",
          "2026-01-01T00:00:00+00:00", "write report", "boss",
          "2026-01-03T00:00:00+00:00", "2026-01-03T00:00:00+00:00"⟩, []⟩
    ∧ (update_task demoEnvOff demoPool "2026-01-03T00:00:00+00:00" true true
        demoFullBody "boss" "sub-boss" ["admin"] demoStore).resp
      = .ok ⟨200, Body.updated "Task updated successfully"
          { demoTaskA with
            status := demoFullBody.status.getD "",
            updatedAt := "2026-01-03T00:00:00+00:00" }, []⟩ := by
  have h := notification_failure_isolation demoEnvOff demoPool
    "alice@example.com" "write report" "2026-01-01T00:00:00+00:00" "alice"
    "t1" "write report" "New" "Completed" "boss" (some "sub-alice")
    "t9" "2026-01-03T00:00:00+00:00" demoFullBody "boss" "sub-boss" ["admin"]
    demoStore demoTaskA demoAlice
    "2026-01-01T00:00:00+00:00" "write report"
    (Or.inl (by decide)) (Or.inl (by decide)) (by decide) (by decide) (by decide)
    (by decide) (by decide) (by decide) (by decide) (by decide) (by decide)
    (Or.inr (by decide))
  exact ⟨by decide, by decide, h.1, h.2.1, h.2.2.1, h.2.2.2⟩

/-- C10: a task-handler request whose method is none of OPTIONS, GET, POST,
PUT is answered 405 Method Not Allowed with exactly the fixed CORS headers
merged in; the store is returned unchanged, no notification is sent, and the
response is a constant, independent of the store's contents. -/
theorem handler_unknown_method
    (env : NotifEnv) (pool : List CognitoUser) (nid now : String)
    (cok gok pok : Bool) (event : TaskEvent) (store : Store)
    (h1 : event.httpMethod ≠ "OPTIONS") (h2 : event.httpMethod ≠ "GET")
    (h3 : event.httpMethod ≠ "POST") (h4 : event.httpMethod ≠ "PUT") :
    handler env pool nid now cok gok pok event store
      = ⟨.ok ⟨405, Body.err "Method Not Allowed", DEFAULT_CORS_HEADERS⟩, store, [], []⟩ := by
  simp [handler, h1, h2, h3, h4]
  rfl

/-- Concrete check of handler_unknown_method on a DELETE request. -/
theorem handler_unknown_method_witness :
    ("DELETE" : String) ≠ "OPTIONS" ∧ ("DELETE" : String) ≠ "GET"
    ∧ ("DELETE" : String) ≠ "POST" ∧ ("DELETE" : String) ≠ "PUT"
    ∧ handler demoEnv demoPool "t9" "2026-01-03T00:00:00+00:00" true true true
        ⟨"DELETE", ⟨"alice", "sub-alice", ["member"]⟩, ⟨none, none, none, none, none⟩⟩
        demoStore
      = ⟨.ok ⟨405, Body.err "Method Not Allowed", DEFAULT_CORS_HEADERS⟩, demoStore, [], []⟩ :=
  ⟨by decide, by decide, by decide, by decide,
   handler_unknown_method demoEnv demoPool "t9" "2026-01-03T00:00:00+00:00" true true true
     ⟨"DELETE", ⟨"alice", "sub-alice", ["member"]⟩, ⟨none, none, none, none, none⟩⟩
     demoStore (by decide) (by decide) (by decide) (by decide)⟩

/-- C4: evaluation of the deadline scanner at a store containing a due,
uncompleted task (demoTaskA, status New): instead of scanning and publishing
one alert, the handler escapes with the AttributeError raised by
`datetime.now(datetime.UTC)` on line 18, whatever the time oracle computes. -/
theorem deadline_handler_always_raises :
    deadline_handler (fun s => s) "arn:alerts" [demoTaskA]
      = .error (PyErr.attributeError
          "type object datetime.datetime has no attribute UTC") := rfl

end Holiday
